import Mathlib

/-!
Verification of the viewport/interaction engine of the Perseus repository.

The definitions below are a shallow embedding of the main application module
(src/src/App.js, the 100 x 100 grid variant).  JavaScript numbers carrying
grid coordinates and pixel geometry are modelled as integers where the source
only ever produces integers (all tile geometry is integral: TILE_W / 2 = 48
and TILE_H / 2 = 24 are exact), and as rationals for pointer-drag arithmetic,
whose results are always clamped before use.  Math.floor applied to a
nonnegative half is written as integer division, which agrees with it on the
operands that occur.  Fallible or asynchronous chain interaction is modelled
by passing the outcome of the chain call explicitly.
-/

/-- Full logical grid side, App.js line 7. -/
def GRID_SIZE : ℤ := 100

/-- Rendered window side, App.js line 8. -/
def VISIBLE_SIZE : ℤ := 11

/-- Fixed sizing grid used only for the on-screen scale, App.js line 11. -/
def SIZING_GRID : ℤ := 20

/-- Tile width, App.js line 13. -/
def TILE_W : ℤ := 96

/-- Tile height, App.js line 14. -/
def TILE_H : ℤ := 48

/-- Isometric projection of a grid coordinate, App.js lines 18-22. -/
def isoPos (row col : ℤ) : ℤ × ℤ :=
  ((col - row) * (TILE_W / 2), (col + row) * (TILE_H / 2))

/-- Vertices of the tile diamond drawn by tilePath, App.js lines 24-28:
M 0 -h L w2 0 L 0 h L -w2 0 Z with w2 = TILE_W / 2 and h = TILE_H / 2. -/
def tilePathVertices : List (ℤ × ℤ) :=
  [(0, -(TILE_H / 2)), (TILE_W / 2, 0), (0, TILE_H / 2), (-(TILE_W / 2), 0)]

/-- Clamp helper, App.js line 159: Math.max(lo, Math.min(hi, v)). -/
def clamp {α : Type} [LinearOrder α] (v lo hi : α) : α := max lo (min hi v)

/-- The visible window record returned by getVisibleWindow. -/
structure VisibleWindow where
  startR : ℤ
  endR : ℤ
  startC : ℤ
  endC : ℤ
deriving DecidableEq

/-- Visible window selector, App.js lines 165-177.  The anchor argument is
the ownedCell record whose field x feeds the row axis and whose field y
feeds the column axis, exactly as in the source.  Math.floor(VISIBLE_SIZE/2)
and Math.floor((GRID_SIZE - VISIBLE_SIZE)/2) are integer divisions of
nonnegative operands. -/
def getVisibleWindow (center : Option (ℤ × ℤ)) : VisibleWindow :=
  match center with
  | some c =>
      let half : ℤ := VISIBLE_SIZE / 2
      let sr := clamp (c.1 - half) 0 (GRID_SIZE - VISIBLE_SIZE)
      let sc := clamp (c.2 - half) 0 (GRID_SIZE - VISIBLE_SIZE)
      ⟨sr, sr + VISIBLE_SIZE - 1, sc, sc + VISIBLE_SIZE - 1⟩
  | none =>
      let start : ℤ := (GRID_SIZE - VISIBLE_SIZE) / 2
      ⟨start, start + VISIBLE_SIZE - 1, start, start + VISIBLE_SIZE - 1⟩

/-- The viewport frame: minX, minY and the viewBox extent, App.js lines 392-413. -/
structure Frame where
  minX : ℤ
  minY : ℤ
  width : ℤ
  height : ℤ
deriving DecidableEq

/-- App.js line 392: sizingWidth = SIZING_GRID * TILE_W. -/
def sizingWidth : ℤ := SIZING_GRID * TILE_W

/-- App.js line 393: sizingHeight = SIZING_GRID * TILE_H. -/
def sizingHeight : ℤ := SIZING_GRID * TILE_H

/-- Viewbox / centering logic, App.js lines 395-413: the frame is centered on
the owned cell when present, otherwise on the dead-center cell derived from
startCenter + floor(VISIBLE_SIZE/2) on both axes. -/
def computeFrame (ownedCell : Option (ℤ × ℤ)) : Frame :=
  match ownedCell with
  | some cell =>
      let p := isoPos cell.1 cell.2
      ⟨p.1 - sizingWidth / 2, p.2 - sizingHeight / 2, sizingWidth, sizingHeight⟩
  | none =>
      let startCenter : ℤ := (GRID_SIZE - VISIBLE_SIZE) / 2
      let centerRow := startCenter + VISIBLE_SIZE / 2
      let centerCol := startCenter + VISIBLE_SIZE / 2
      let p := isoPos centerRow centerCol
      ⟨p.1 - sizingWidth / 2, p.2 - sizingHeight / 2, sizingWidth, sizingHeight⟩

/-- World-bounds rectangle record. -/
structure WorldRect where
  minX : ℤ
  minY : ℤ
  width : ℤ
  height : ℤ
deriving DecidableEq

/-- Full-world isometric bounding box, App.js lines 427-432. -/
def WORLD : WorldRect :=
  ⟨-GRID_SIZE * (TILE_W / 2), -(TILE_H / 2), GRID_SIZE * TILE_W,
    (GRID_SIZE - 1) * TILE_H + TILE_H⟩

/-- Vertical edge padding, App.js line 435. -/
def EDGE_PAD : ℤ := 0

/-- Horizontal edge padding, App.js line 436. -/
def EDGE_PAD_X : ℤ := 50

/-- Pan limits record; field names follow the object built at App.js line 442. -/
structure PanLimits where
  minX : ℤ
  maxX : ℤ
  minY : ℤ
  maxY : ℤ
deriving DecidableEq

/-- Pan limits computed from the current frame, App.js lines 437-443.
In the source viewMinX = f.minX, viewWidth = f.width and so on. -/
def PAN_LIMITS (f : Frame) : PanLimits :=
  { minX := (f.minX + f.width) - (WORLD.minX + WORLD.width) + EDGE_PAD_X
    maxX := f.minX - WORLD.minX - EDGE_PAD_X
    minY := (f.minY + f.height) - (WORLD.minY + WORLD.height) - EDGE_PAD
    maxY := f.minY - WORLD.minY + EDGE_PAD }

/-- Pan state: pan is the committed React state, panRef the live ref that
drives the rendered transform, App.js lines 203-205. -/
structure PanState where
  pan : ℚ × ℚ
  panRef : ℚ × ℚ
deriving DecidableEq

/-- Pan-reset effect run whenever the center jumps, App.js lines 446-453:
both the committed state and the live ref are overwritten with the clamp of
the origin into the current limits.  The limit values are integers, so the
clamps are taken in the integers and cast. -/
def panResetEffect (L : PanLimits) (_st : PanState) : PanState :=
  let nx := clamp 0 L.minX L.maxX
  let ny := clamp 0 L.minY L.maxY
  ⟨((nx : ℚ), (ny : ℚ)), ((nx : ℚ), (ny : ℚ))⟩

/-- Drag bookkeeping held in dragRef, App.js line 206. -/
structure DragState where
  active : Bool
  startX : ℚ
  startY : ℚ
  origX : ℚ
  origY : ℚ
deriving DecidableEq

/-- Pointer-move handler, App.js lines 470-499: while a drag is active the
client-pixel delta is scaled into viewBox units, added to the recorded drag
origin, clamped into the pan limits and stored in the live ref.  The
committed pan value is untouched; the rendered transform is refreshed from
the live ref.  Client coordinates and surface extent are rationals. -/
def onPointerMove (L : PanLimits) (drag : DragState) (st : PanState)
    (clientX clientY rectW rectH : ℚ) : PanState :=
  if drag.active then
    let scaleX := (sizingWidth : ℚ) / rectW
    let scaleY := (sizingHeight : ℚ) / rectH
    let dxPx := clientX - drag.startX
    let dyPx := clientY - drag.startY
    let nx := clamp (drag.origX + dxPx * scaleX) (L.minX : ℚ) (L.maxX : ℚ)
    let ny := clamp (drag.origY + dyPx * scaleY) (L.minY : ℚ) (L.maxY : ℚ)
    { st with panRef := (nx, ny) }
  else st

/-- Pointer-up handler (also wired to pointer-cancel), App.js lines 501-510:
the live ref is clamped once more and copied into the committed state. -/
def onPointerUp (L : PanLimits) (st : PanState) : PanState :=
  let nx := clamp st.panRef.1 (L.minX : ℚ) (L.maxX : ℚ)
  let ny := clamp st.panRef.2 (L.minY : ℚ) (L.maxY : ℚ)
  ⟨(nx, ny), (nx, ny)⟩

/-- Offset lies inside the pan limits, per axis. -/
def withinLimits (L : PanLimits) (p : ℚ × ℚ) : Prop :=
  (L.minX : ℚ) ≤ p.1 ∧ p.1 ≤ (L.maxX : ℚ) ∧ (L.minY : ℚ) ≤ p.2 ∧ p.2 ≤ (L.maxY : ℚ)

/-- Boolean test that the first character list starts the second. -/
def startsWithChars : List Char → List Char → Bool
  | [], _ => true
  | _ :: _, [] => false
  | a :: as, b :: bs => a == b && startsWithChars as bs

/-- Boolean substring test on character lists. -/
def hasSubChars (p : List Char) : List Char → Bool
  | [] => startsWithChars p []
  | b :: bs => startsWithChars p (b :: bs) || hasSubChars p bs

/-- JavaScript String.prototype.includes. -/
def jsIncludes (s pat : String) : Bool := hasSubChars pat.data s.data

/-- JavaScript String.prototype.toLowerCase restricted to the ASCII texts
that occur in the handled failure messages. -/
def jsToLower (s : String) : String := ⟨s.data.map Char.toLower⟩

/-- A JavaScript number as produced by Number(input): either NaN or an exact
numeric value (every value the gate handles is exactly representable). -/
inductive JSNum where
  | nan : JSNum
  | val : ℚ → JSNum
deriving DecidableEq

/-- Number.isInteger. -/
def JSNum.isInt : JSNum → Bool
  | nan => false
  | val q => q.den == 1

/-- The integer value of a JSNum known to be an integer. -/
def JSNum.toInt : JSNum → ℤ
  | nan => 0
  | val q => q.num

/-- Gate and contract state of the component, App.js lines 191-196:
the owned cell (the Granted cell of the ownership gate, none while Gated),
the loaded occupy fee in wei (none until the chain read completes), the busy
flag and the user-facing error text. -/
structure GateState where
  ownedCell : Option (ℤ × ℤ)
  feeWei : Option ℕ
  busy : Bool
  error : String
deriving DecidableEq

/-- Result of the local validation phase of handleOccupy: either a local
rejection with its message, or the data of the chain call that is sent. -/
inductive OccupyLocal where
  | rejected : String → OccupyLocal
  | send : ℤ → ℤ → ℤ → ℕ → OccupyLocal
deriving DecidableEq

/-- Outcome of an awaited claim submission: tx.wait() resolved, or the call
threw with the given message text. -/
inductive ChainOutcome where
  | confirmed : ChainOutcome
  | failed : String → ChainOutcome
deriving DecidableEq

/-- Local validation of handleOccupy, App.js lines 348-365, in source order:
integrality of both coordinates, range check against GRID_SIZE, resource
range check, and the falsiness test on feeWei (a missing fee and a zero fee
are both falsy for a JavaScript BigInt). -/
def occupyValidate (x y : JSNum) (resourceId : ℤ) (feeWei : Option ℕ) : OccupyLocal :=
  if !x.isInt || !y.isInt then
    OccupyLocal.rejected ("Coordinates must be integers.")
  else if x.toInt < 0 ∨ y.toInt < 0 ∨ GRID_SIZE ≤ x.toInt ∨ GRID_SIZE ≤ y.toInt then
    OccupyLocal.rejected ("Coordinates must be within 0..99.")
  else if resourceId < 0 ∨ 7 < resourceId then
    OccupyLocal.rejected ("Invalid resource type.")
  else
    match feeWei with
    | none => OccupyLocal.rejected ("Occupy fee is not loaded yet.")
    | some fee =>
        if fee = 0 then OccupyLocal.rejected ("Occupy fee is not loaded yet.")
        else OccupyLocal.send x.toInt y.toInt resourceId fee

/-- Classification of a failure by its lowercased message text, App.js
lines 377-383, in source order. -/
def classifyError (msg : String) : String :=
  if jsIncludes msg ("outofbounds") then "Out of bounds."
  else if jsIncludes msg ("alreadyoccupied") then "That cell is already occupied."
  else if jsIncludes msg ("wrongfee") then "Wrong fee sent."
  else if jsIncludes msg ("invalidresourcetype") then "Invalid resource type."
  else if jsIncludes msg ("user rejected") then "Transaction was rejected."
  else "Failed to occupy the cell. See console for details."

/-- State while the submission is in flight, App.js line 367: after
validation passes, setBusy(true) has run and the transaction has been sent,
but tx.wait() has not yet resolved.  The owned cell is untouched here. -/
def occupyPending (st : GateState) : GateState :=
  { st with busy := true }

/-- Resolution of the awaited submission, App.js lines 372-386: on
confirmation the owned cell becomes the submitted coordinates; on a throw
the message is classified after lowercasing; the finally block clears the
busy flag in both cases. -/
def occupyResolve (st : GateState) (xi yi : ℤ) (outcome : ChainOutcome) : GateState :=
  match outcome with
  | ChainOutcome.confirmed => { st with ownedCell := some (xi, yi), busy := false }
  | ChainOutcome.failed m => { st with error := classifyError (jsToLower m), busy := false }

/-- Whole submission handler handleOccupy, App.js lines 345-387, with the
outcome of the single awaited chain interaction passed explicitly: setError
clears the error text, local validation either rejects with its message (no
signer is obtained and no transaction is sent, so the outcome argument is
never consulted) or the claim is submitted and resolved. -/
def handleOccupy (st : GateState) (x y : JSNum) (resourceId : ℤ)
    (outcome : ChainOutcome) : GateState :=
  let st0 : GateState := { st with error := "" }
  match occupyValidate x y resourceId st.feeWei with
  | OccupyLocal.rejected m => { st0 with error := m }
  | OccupyLocal.send xi yi _ _ => occupyResolve (occupyPending st0) xi yi outcome

/-! Helper lemmas shared by the claim theorems. -/

lemma lo_le_clamp {α : Type} [LinearOrder α] (v lo hi : α) : lo ≤ clamp v lo hi :=
  le_max_left _ _

lemma clamp_le_hi {α : Type} [LinearOrder α] (v lo hi : α) (h : lo ≤ hi) :
    clamp v lo hi ≤ hi :=
  max_le h (min_le_left _ _)

lemma clamp_zero_iff (lo hi : ℤ) (h : lo ≤ hi) :
    clamp 0 lo hi ≠ 0 ↔ (0 < lo ∨ hi < 0) := by
  unfold clamp
  omega

lemma panLimits_le (a : Option (ℤ × ℤ)) :
    (PAN_LIMITS (computeFrame a)).minX ≤ (PAN_LIMITS (computeFrame a)).maxX ∧
    (PAN_LIMITS (computeFrame a)).minY ≤ (PAN_LIMITS (computeFrame a)).maxY := by
  rcases a with _ | cell <;>
    (simp [PAN_LIMITS, computeFrame, WORLD, sizingWidth, sizingHeight, EDGE_PAD,
      EDGE_PAD_X, GRID_SIZE, VISIBLE_SIZE, SIZING_GRID, TILE_W, TILE_H, isoPos]; try omega)

lemma handleOccupy_of_rejected (st : GateState) (x y : JSNum) (ri : ℤ)
    (o : ChainOutcome) (m : String)
    (h : occupyValidate x y ri st.feeWei = OccupyLocal.rejected m) :
    handleOccupy st x y ri o = { st with error := m } := by
  simp [handleOccupy, h]

/-! Claim theorems. -/

/-- Claim C1: for every anchor cell (r, c) with 0 <= r, c <= 99 the visible
window selector returns, independently per axis, start = clamp(anchor - 5, 0, 89)
and end = start + 10, so the window is always exactly 11 x 11 and lies within
0..99; with a null anchor it returns rows and columns 44..54. -/
theorem getVisibleWindow_clamped_window (r c : ℤ)
    (hr0 : 0 ≤ r) (hr1 : r ≤ 99) (hc0 : 0 ≤ c) (hc1 : c ≤ 99) :
    (getVisibleWindow (some (r, c))).startR = clamp (r - 5) 0 89 ∧
    (getVisibleWindow (some (r, c))).endR = (getVisibleWindow (some (r, c))).startR + 10 ∧
    (getVisibleWindow (some (r, c))).startC = clamp (c - 5) 0 89 ∧
    (getVisibleWindow (some (r, c))).endC = (getVisibleWindow (some (r, c))).startC + 10 ∧
    0 ≤ (getVisibleWindow (some (r, c))).startR ∧
    (getVisibleWindow (some (r, c))).endR ≤ 99 ∧
    0 ≤ (getVisibleWindow (some (r, c))).startC ∧
    (getVisibleWindow (some (r, c))).endC ≤ 99 ∧
    getVisibleWindow none = ⟨44, 54, 44, 54⟩ := by
  refine ⟨?_, ?_, ?_, ?_, ?_, ?_, ?_, ?_, ?_⟩ <;>
    simp [getVisibleWindow, clamp, VISIBLE_SIZE, GRID_SIZE] <;> omega

/-- Claim C1 witness at the corner anchor (99, 99). -/
theorem getVisibleWindow_clamped_window_witness :
    (getVisibleWindow (some ((99 : ℤ), (99 : ℤ)))).startR = clamp (99 - 5) 0 89 ∧
    (getVisibleWindow (some ((99 : ℤ), (99 : ℤ)))).endR =
      (getVisibleWindow (some ((99 : ℤ), (99 : ℤ)))).startR + 10 ∧
    (getVisibleWindow (some ((99 : ℤ), (99 : ℤ)))).startC = clamp (99 - 5) 0 89 ∧
    (getVisibleWindow (some ((99 : ℤ), (99 : ℤ)))).endC =
      (getVisibleWindow (some ((99 : ℤ), (99 : ℤ)))).startC + 10 ∧
    0 ≤ (getVisibleWindow (some ((99 : ℤ), (99 : ℤ)))).startR ∧
    (getVisibleWindow (some ((99 : ℤ), (99 : ℤ)))).endR ≤ 99 ∧
    0 ≤ (getVisibleWindow (some ((99 : ℤ), (99 : ℤ)))).startC ∧
    (getVisibleWindow (some ((99 : ℤ), (99 : ℤ)))).endC ≤ 99 ∧
    getVisibleWindow none = ⟨44, 54, 44, 54⟩ :=
  getVisibleWindow_clamped_window 99 99 (by decide) (by decide) (by decide) (by decide)

/-- Claim C2: for every frame produced from any anchor, the pan limits
satisfy minX <= maxX and minY <= maxY. -/
theorem panLimits_ordered (a : Option (ℤ × ℤ)) :
    (PAN_LIMITS (computeFrame a)).minX ≤ (PAN_LIMITS (computeFrame a)).maxX ∧
    (PAN_LIMITS (computeFrame a)).minY ≤ (PAN_LIMITS (computeFrame a)).maxY :=
  panLimits_le a

/-- Claim C5: the projection is deterministic with the stated closed form and
is injective over integer coordinates in 0..99 on both axes. -/
theorem isoPos_deterministic_injective (r1 c1 r2 c2 : ℤ)
    (_h1 : 0 ≤ r1 ∧ r1 ≤ 99) (_h2 : 0 ≤ c1 ∧ c1 ≤ 99)
    (_h3 : 0 ≤ r2 ∧ r2 ≤ 99) (_h4 : 0 ≤ c2 ∧ c2 ≤ 99) :
    isoPos r1 c1 = ((c1 - r1) * 48, (c1 + r1) * 24) ∧
    (isoPos r1 c1 = isoPos r2 c2 → r1 = r2 ∧ c1 = c2) := by
  constructor
  · simp [isoPos, TILE_W, TILE_H]
  · intro heq
    simp [isoPos, TILE_W, TILE_H, Prod.ext_iff] at heq
    omega

/-- Claim C5 witness at two equal in-range coordinates. -/
theorem isoPos_deterministic_injective_witness :
    isoPos 5 7 = (((7 : ℤ) - 5) * 48, ((7 : ℤ) + 5) * 24) ∧
    (isoPos 5 7 = isoPos 5 7 → (5 : ℤ) = 5 ∧ (7 : ℤ) = 7) :=
  isoPos_deterministic_injective 5 7 5 7 (by decide) (by decide) (by decide) (by decide)

/-- Claim C9: the viewport frame is a pure function of the anchor with fixed
extent 20 * TILE_W by 20 * TILE_H, minX and minY are the projection of the
center minus half the frame extent per axis, the center is the granted cell
when one exists and the fixed default grid-center cell (49, 49) otherwise,
and identical anchors always yield identical frames. -/
theorem computeFrame_pure_fixed_size :
    (∀ a : Option (ℤ × ℤ),
      (computeFrame a).width = 20 * TILE_W ∧ (computeFrame a).height = 20 * TILE_H) ∧
    (∀ cell : ℤ × ℤ, computeFrame (some cell) =
      ⟨(isoPos cell.1 cell.2).1 - 20 * TILE_W / 2,
       (isoPos cell.1 cell.2).2 - 20 * TILE_H / 2, 20 * TILE_W, 20 * TILE_H⟩) ∧
    computeFrame none = computeFrame (some ((49 : ℤ), (49 : ℤ))) ∧
    (∀ a1 a2 : Option (ℤ × ℤ), a1 = a2 → computeFrame a1 = computeFrame a2) := by
  refine ⟨?_, ?_, ?_, ?_⟩
  · intro a
    rcases a with _ | cell <;>
      simp [computeFrame, sizingWidth, sizingHeight, SIZING_GRID, TILE_W, TILE_H]
  · intro cell
    simp [computeFrame, sizingWidth, sizingHeight, SIZING_GRID, TILE_W, TILE_H]
  · decide
  · intro a1 a2 h
    rw [h]

/-- Claim C9 witness: the congruence conjunct applied at the concrete anchor
(5, 5), together with the fixed-extent conjunct there. -/
theorem computeFrame_pure_fixed_size_witness :
    (computeFrame (some ((5 : ℤ), (5 : ℤ)))).width = 20 * TILE_W ∧
    computeFrame (some ((5 : ℤ), (5 : ℤ))) = computeFrame (some ((5 : ℤ), (5 : ℤ))) :=
  ⟨(computeFrame_pure_fixed_size.1 (some (5, 5))).1,
   computeFrame_pure_fixed_size.2.2.2 (some (5, 5)) (some (5, 5)) rfl⟩

/-- Claim C10: WORLD is exactly the bounding box of the projection of the
whole grid: every vertex of every in-range tile diamond lies within WORLD,
and each of the four boundary values is attained by the diamond of some
in-range tile. -/
theorem WORLD_bounding_box (r c dx dy : ℤ)
    (hr : 0 ≤ r ∧ r ≤ 99) (hc : 0 ≤ c ∧ c ≤ 99)
    (hmem : (dx, dy) ∈ tilePathVertices) :
    (WORLD.minX ≤ (isoPos r c).1 + dx ∧
     (isoPos r c).1 + dx ≤ WORLD.minX + WORLD.width ∧
     WORLD.minY ≤ (isoPos r c).2 + dy ∧
     (isoPos r c).2 + dy ≤ WORLD.minY + WORLD.height) ∧
    (∃ r0 c0 dx0 dy0 : ℤ, (0 ≤ r0 ∧ r0 ≤ 99) ∧ (0 ≤ c0 ∧ c0 ≤ 99) ∧
      (dx0, dy0) ∈ tilePathVertices ∧ (isoPos r0 c0).1 + dx0 = WORLD.minX) ∧
    (∃ r0 c0 dx0 dy0 : ℤ, (0 ≤ r0 ∧ r0 ≤ 99) ∧ (0 ≤ c0 ∧ c0 ≤ 99) ∧
      (dx0, dy0) ∈ tilePathVertices ∧ (isoPos r0 c0).1 + dx0 = WORLD.minX + WORLD.width) ∧
    (∃ r0 c0 dx0 dy0 : ℤ, (0 ≤ r0 ∧ r0 ≤ 99) ∧ (0 ≤ c0 ∧ c0 ≤ 99) ∧
      (dx0, dy0) ∈ tilePathVertices ∧ (isoPos r0 c0).2 + dy0 = WORLD.minY) ∧
    (∃ r0 c0 dx0 dy0 : ℤ, (0 ≤ r0 ∧ r0 ≤ 99) ∧ (0 ≤ c0 ∧ c0 ≤ 99) ∧
      (dx0, dy0) ∈ tilePathVertices ∧ (isoPos r0 c0).2 + dy0 = WORLD.minY + WORLD.height) := by
  refine ⟨?_, ⟨99, 0, -48, 0, by decide, by decide, by decide, by decide⟩,
    ⟨0, 99, 48, 0, by decide, by decide, by decide, by decide⟩,
    ⟨0, 0, 0, -24, by decide, by decide, by decide, by decide⟩,
    ⟨99, 99, 0, 24, by decide, by decide, by decide, by decide⟩⟩
  simp [tilePathVertices, TILE_W, TILE_H, Prod.ext_iff] at hmem
  rcases hmem with ⟨h5, h6⟩ | ⟨h5, h6⟩ | ⟨h5, h6⟩ | ⟨h5, h6⟩ <;>
    subst h5 <;> subst h6 <;>
    simp [isoPos, WORLD, GRID_SIZE, TILE_W, TILE_H] <;> omega

/-- Claim C10 witness at the tile (0, 0) and its top vertex. -/
theorem WORLD_bounding_box_witness :
    (WORLD.minX ≤ (isoPos 0 0).1 + 0 ∧
     (isoPos 0 0).1 + 0 ≤ WORLD.minX + WORLD.width ∧
     WORLD.minY ≤ (isoPos 0 0).2 + -24 ∧
     (isoPos 0 0).2 + -24 ≤ WORLD.minY + WORLD.height) ∧
    (∃ r0 c0 dx0 dy0 : ℤ, (0 ≤ r0 ∧ r0 ≤ 99) ∧ (0 ≤ c0 ∧ c0 ≤ 99) ∧
      (dx0, dy0) ∈ tilePathVertices ∧ (isoPos r0 c0).1 + dx0 = WORLD.minX) ∧
    (∃ r0 c0 dx0 dy0 : ℤ, (0 ≤ r0 ∧ r0 ≤ 99) ∧ (0 ≤ c0 ∧ c0 ≤ 99) ∧
      (dx0, dy0) ∈ tilePathVertices ∧ (isoPos r0 c0).1 + dx0 = WORLD.minX + WORLD.width) ∧
    (∃ r0 c0 dx0 dy0 : ℤ, (0 ≤ r0 ∧ r0 ≤ 99) ∧ (0 ≤ c0 ∧ c0 ≤ 99) ∧
      (dx0, dy0) ∈ tilePathVertices ∧ (isoPos r0 c0).2 + dy0 = WORLD.minY) ∧
    (∃ r0 c0 dx0 dy0 : ℤ, (0 ≤ r0 ∧ r0 ≤ 99) ∧ (0 ≤ c0 ∧ c0 ≤ 99) ∧
      (dx0, dy0) ∈ tilePathVertices ∧ (isoPos r0 c0).2 + dy0 = WORLD.minY + WORLD.height) :=
  WORLD_bounding_box 0 0 0 (-24) (by decide) (by decide) (by decide)

/-- Claim C3: ownership becomes Granted only after the chain confirms, never
optimistically.  While the submission is pending the owned cell is unchanged;
the claim (5, 5, resourceType 2) with the loaded fee 1000 that confirms yields
ownedCell = (5, 5) with the viewport frame and visible window re-anchored on
(5, 5); a failed submission never changes the owned cell. -/
theorem ownership_granted_only_after_confirmation (st : GateState)
    (hfee : st.feeWei = some 1000) :
    (occupyPending { st with error := "" }).ownedCell = st.ownedCell ∧
    (handleOccupy st (JSNum.val 5) (JSNum.val 5) 2 ChainOutcome.confirmed).ownedCell
      = some (5, 5) ∧
    computeFrame (handleOccupy st (JSNum.val 5) (JSNum.val 5) 2
        ChainOutcome.confirmed).ownedCell = ⟨-960, -240, 1920, 960⟩ ∧
    getVisibleWindow (handleOccupy st (JSNum.val 5) (JSNum.val 5) 2
        ChainOutcome.confirmed).ownedCell = ⟨0, 10, 0, 10⟩ ∧
    (∀ m : String,
      (handleOccupy st (JSNum.val 5) (JSNum.val 5) 2 (ChainOutcome.failed m)).ownedCell
        = st.ownedCell) := by
  have hv : occupyValidate (JSNum.val 5) (JSNum.val 5) 2 (some 1000)
      = OccupyLocal.send 5 5 2 1000 := by decide
  refine ⟨rfl, ?_, ?_, ?_, ?_⟩
  · simp [handleOccupy, hfee, hv, occupyResolve, occupyPending]
  · simp [handleOccupy, hfee, hv, occupyResolve, occupyPending]
    decide
  · simp [handleOccupy, hfee, hv, occupyResolve, occupyPending]
    decide
  · intro m
    simp [handleOccupy, hfee, hv, occupyResolve, occupyPending]

/-- Claim C3 witness at a Gated state with the fee 1000 loaded. -/
theorem ownership_granted_only_after_confirmation_witness :
    (GateState.mk none (some 1000) false ("")).feeWei = some 1000 ∧
    ((occupyPending { GateState.mk none (some 1000) false ("") with error := "" }).ownedCell
      = (GateState.mk none (some 1000) false ("")).ownedCell ∧
    (handleOccupy (GateState.mk none (some 1000) false ("")) (JSNum.val 5) (JSNum.val 5) 2
        ChainOutcome.confirmed).ownedCell = some (5, 5) ∧
    computeFrame (handleOccupy (GateState.mk none (some 1000) false ("")) (JSNum.val 5)
        (JSNum.val 5) 2 ChainOutcome.confirmed).ownedCell = ⟨-960, -240, 1920, 960⟩ ∧
    getVisibleWindow (handleOccupy (GateState.mk none (some 1000) false ("")) (JSNum.val 5)
        (JSNum.val 5) 2 ChainOutcome.confirmed).ownedCell = ⟨0, 10, 0, 10⟩ ∧
    (∀ m : String,
      (handleOccupy (GateState.mk none (some 1000) false ("")) (JSNum.val 5) (JSNum.val 5) 2
          (ChainOutcome.failed m)).ownedCell
        = (GateState.mk none (some 1000) false ("")).ownedCell)) :=
  ⟨rfl, ownership_granted_only_after_confirmation (GateState.mk none (some 1000) false ("")) rfl⟩

/-- Claim C4: a submission whose row or column is not an integer in 0..99,
whose resource type lies outside 0..7, or made while the fee is not yet
loaded, is rejected by the local validation with a validation message, and
no chain call is made: the resulting state does not depend on any chain
outcome and is the original state with only the error text set. -/
theorem invalid_claim_rejected_locally (st : GateState) (x y : JSNum) (resourceId : ℤ)
    (hbad : (¬ (x.isInt = true ∧ 0 ≤ x.toInt ∧ x.toInt ≤ 99 ∧
                y.isInt = true ∧ 0 ≤ y.toInt ∧ y.toInt ≤ 99)) ∨
            resourceId < 0 ∨ 7 < resourceId ∨ st.feeWei = none) :
    ∃ m : String, occupyValidate x y resourceId st.feeWei = OccupyLocal.rejected m ∧
      ∀ outcome : ChainOutcome,
        handleOccupy st x y resourceId outcome = { st with error := m } := by
  have hrej : ∃ m : String,
      occupyValidate x y resourceId st.feeWei = OccupyLocal.rejected m := by
    unfold occupyValidate
    split_ifs with h1 h2 h3
    · exact ⟨_, rfl⟩
    · exact ⟨_, rfl⟩
    · exact ⟨_, rfl⟩
    · rcases hfw : st.feeWei with _ | fee
      · exact ⟨_, rfl⟩
      · by_cases hz : fee = 0
        · refine ⟨"Occupy fee is not loaded yet.", ?_⟩
          simp [hz]
        · exfalso
          have hxi : x.isInt = true := by
            rcases Bool.eq_false_or_eq_true x.isInt with htr | hfa
            · exact htr
            · exact absurd (by simp [hfa]) h1
          have hyi : y.isInt = true := by
            rcases Bool.eq_false_or_eq_true y.isInt with htr | hfa
            · exact htr
            · exact absurd (by simp [hfa]) h1
          push_neg at h2 h3
          rw [show GRID_SIZE = 100 from rfl] at h2
          rcases hbad with hb | hb | hb | hb
          · exact hb ⟨hxi, by omega, by omega, hyi, by omega, by omega⟩
          · omega
          · omega
          · rw [hfw] at hb
            exact Option.noConfusion hb
  obtain ⟨m, hm⟩ := hrej
  exact ⟨m, hm, fun outcome => handleOccupy_of_rejected st x y resourceId outcome m hm⟩

/-- Claim C4 witness: the spec scenario with resourceType 9 at a Gated state
with the fee loaded and valid coordinates. -/
theorem invalid_claim_rejected_locally_witness :
    ((7 : ℤ) < 9) ∧
    (∃ m : String,
      occupyValidate (JSNum.val 5) (JSNum.val 5) 9
          (GateState.mk none (some 1000) false ("")).feeWei = OccupyLocal.rejected m ∧
      ∀ outcome : ChainOutcome,
        handleOccupy (GateState.mk none (some 1000) false ("")) (JSNum.val 5) (JSNum.val 5) 9
            outcome
          = { GateState.mk none (some 1000) false ("") with error := m }) :=
  ⟨by decide,
   invalid_claim_rejected_locally (GateState.mk none (some 1000) false (""))
     (JSNum.val 5) (JSNum.val 5) 9 (Or.inr (Or.inr (Or.inl (by decide))))⟩

/-- Claim C6: whenever the anchor changes, the pan-reset effect overwrites
the committed and the live offset with the same value, that value is the
clamp of the origin into the limits recomputed for the new frame, and per
axis it is nonzero exactly when zero lies outside the new limits. -/
theorem pan_reset_on_anchor_change (a : Option (ℤ × ℤ)) (st : PanState) :
    (panResetEffect (PAN_LIMITS (computeFrame a)) st).pan
      = (panResetEffect (PAN_LIMITS (computeFrame a)) st).panRef ∧
    (panResetEffect (PAN_LIMITS (computeFrame a)) st).pan
      = (((clamp 0 (PAN_LIMITS (computeFrame a)).minX (PAN_LIMITS (computeFrame a)).maxX : ℤ) : ℚ),
         ((clamp 0 (PAN_LIMITS (computeFrame a)).minY (PAN_LIMITS (computeFrame a)).maxY : ℤ) : ℚ)) ∧
    ((panResetEffect (PAN_LIMITS (computeFrame a)) st).pan.1 ≠ 0 ↔
      (0 < (PAN_LIMITS (computeFrame a)).minX ∨ (PAN_LIMITS (computeFrame a)).maxX < 0)) ∧
    ((panResetEffect (PAN_LIMITS (computeFrame a)) st).pan.2 ≠ 0 ↔
      (0 < (PAN_LIMITS (computeFrame a)).minY ∨ (PAN_LIMITS (computeFrame a)).maxY < 0)) := by
  have h := panLimits_le a
  refine ⟨rfl, rfl, ?_, ?_⟩
  · show (((clamp 0 (PAN_LIMITS (computeFrame a)).minX
        (PAN_LIMITS (computeFrame a)).maxX : ℤ) : ℚ) ≠ 0) ↔ _
    rw [ne_eq, Int.cast_eq_zero, ← ne_eq]
    exact clamp_zero_iff _ _ h.1
  · show (((clamp 0 (PAN_LIMITS (computeFrame a)).minY
        (PAN_LIMITS (computeFrame a)).maxY : ℤ) : ℚ) ≠ 0) ↔ _
    rw [ne_eq, Int.cast_eq_zero, ← ne_eq]
    exact clamp_zero_iff _ _ h.2

/-- Claim C7: every pan offset produced by drag handling lies within the pan
limits: a pointer move during an active drag stores a clamped value in the
live offset, and pointer up or cancel clamps the live offset once more and
copies it into the committed offset. -/
theorem drag_offsets_within_limits (a : Option (ℤ × ℤ)) (drag : DragState)
    (st : PanState) (clientX clientY rectW rectH : ℚ)
    (hactive : drag.active = true) :
    withinLimits (PAN_LIMITS (computeFrame a))
      (onPointerMove (PAN_LIMITS (computeFrame a)) drag st clientX clientY rectW rectH).panRef ∧
    (∀ st2 : PanState,
      (onPointerUp (PAN_LIMITS (computeFrame a)) st2).pan
        = (onPointerUp (PAN_LIMITS (computeFrame a)) st2).panRef ∧
      withinLimits (PAN_LIMITS (computeFrame a))
        (onPointerUp (PAN_LIMITS (computeFrame a)) st2).pan) := by
  have h := panLimits_le a
  have hx : ((PAN_LIMITS (computeFrame a)).minX : ℚ) ≤ ((PAN_LIMITS (computeFrame a)).maxX : ℚ) :=
    Int.cast_le.mpr h.1
  have hy : ((PAN_LIMITS (computeFrame a)).minY : ℚ) ≤ ((PAN_LIMITS (computeFrame a)).maxY : ℚ) :=
    Int.cast_le.mpr h.2
  constructor
  · simp only [onPointerMove, hactive, if_true]
    exact ⟨lo_le_clamp _ _ _, clamp_le_hi _ _ _ hx, lo_le_clamp _ _ _, clamp_le_hi _ _ _ hy⟩
  · intro st2
    refine ⟨rfl, ?_⟩
    exact ⟨lo_le_clamp _ _ _, clamp_le_hi _ _ _ hx, lo_le_clamp _ _ _, clamp_le_hi _ _ _ hy⟩

/-- Claim C7 witness with an active drag from the origin and a concrete
pointer move on a 100 x 50 surface, with no anchor. -/
theorem drag_offsets_within_limits_witness :
    (DragState.mk true 0 0 0 0).active = true ∧
    (withinLimits (PAN_LIMITS (computeFrame none))
      (onPointerMove (PAN_LIMITS (computeFrame none)) (DragState.mk true 0 0 0 0)
        (PanState.mk (0, 0) (0, 0)) 3 4 100 50).panRef ∧
    (∀ st2 : PanState,
      (onPointerUp (PAN_LIMITS (computeFrame none)) st2).pan
        = (onPointerUp (PAN_LIMITS (computeFrame none)) st2).panRef ∧
      withinLimits (PAN_LIMITS (computeFrame none))
        (onPointerUp (PAN_LIMITS (computeFrame none)) st2).pan)) :=
  ⟨rfl, drag_offsets_within_limits none (DragState.mk true 0 0 0 0)
    (PanState.mk (0, 0) (0, 0)) 3 4 100 50 rfl⟩

/-- Claim C8 counterexample: the classifier tests the failure text for
outofbounds before alreadyoccupied, so a failure text containing
alreadyoccupied does not always yield the AlreadyOccupied user message.
At the concrete failure text shown, which contains alreadyoccupied after
lowercasing, the resulting user message is the OutOfBounds one. -/
theorem alreadyoccupied_classification_counterexample :
    jsIncludes (jsToLower ("OutOfBounds AlreadyOccupied")) ("alreadyoccupied") = true ∧
    (handleOccupy (GateState.mk none (some 1000) false ("")) (JSNum.val 5) (JSNum.val 5) 2
        (ChainOutcome.failed ("OutOfBounds AlreadyOccupied"))).error
      ≠ "That cell is already occupied." ∧
    (handleOccupy (GateState.mk none (some 1000) false ("")) (JSNum.val 5) (JSNum.val 5) 2
        (ChainOutcome.failed ("OutOfBounds AlreadyOccupied"))).error = "Out of bounds." := by
  refine ⟨by decide, ?_, ?_⟩ <;> decide

/-- Claim C8 amended: every failure of a claim submission (a submission whose
local validation produced a chain call) is caught and classified by
inspecting the lowercased failure text; a failure text containing
alreadyoccupied and not containing outofbounds yields the AlreadyOccupied
user message; on any failure the owned cell is unchanged and the busy flag
is cleared. -/
theorem submission_failure_classified (st : GateState) (x y : JSNum)
    (resourceId : ℤ) (xi yi rid : ℤ) (fee : ℕ) (m : String)
    (hsend : occupyValidate x y resourceId st.feeWei = OccupyLocal.send xi yi rid fee) :
    (handleOccupy st x y resourceId (ChainOutcome.failed m)).ownedCell = st.ownedCell ∧
    (handleOccupy st x y resourceId (ChainOutcome.failed m)).busy = false ∧
    (handleOccupy st x y resourceId (ChainOutcome.failed m)).error
      = classifyError (jsToLower m) ∧
    (jsIncludes (jsToLower m) ("alreadyoccupied") = true →
      jsIncludes (jsToLower m) ("outofbounds") = false →
      (handleOccupy st x y resourceId (ChainOutcome.failed m)).error
        = "That cell is already occupied.") := by
  refine ⟨?_, ?_, ?_, ?_⟩
  · simp [handleOccupy, hsend, occupyResolve, occupyPending]
  · simp [handleOccupy, hsend, occupyResolve, occupyPending]
  · simp [handleOccupy, hsend, occupyResolve, occupyPending]
  · intro hocc hoob
    simp [handleOccupy, hsend, occupyResolve, occupyPending, classifyError, hocc, hoob]

/-- Claim C8 amended witness: failure text AlreadyOccupied at a Gated state
with the fee 1000 loaded and the valid claim (5, 5, resourceType 2). -/
theorem submission_failure_classified_witness :
    occupyValidate (JSNum.val 5) (JSNum.val 5) 2
        (GateState.mk none (some 1000) false ("")).feeWei = OccupyLocal.send 5 5 2 1000 ∧
    ((handleOccupy (GateState.mk none (some 1000) false ("")) (JSNum.val 5) (JSNum.val 5) 2
        (ChainOutcome.failed ("AlreadyOccupied"))).ownedCell
      = (GateState.mk none (some 1000) false ("")).ownedCell ∧
    (handleOccupy (GateState.mk none (some 1000) false ("")) (JSNum.val 5) (JSNum.val 5) 2
        (ChainOutcome.failed ("AlreadyOccupied"))).busy = false ∧
    (handleOccupy (GateState.mk none (some 1000) false ("")) (JSNum.val 5) (JSNum.val 5) 2
        (ChainOutcome.failed ("AlreadyOccupied"))).error
      = classifyError (jsToLower ("AlreadyOccupied")) ∧
    (jsIncludes (jsToLower ("AlreadyOccupied")) ("alreadyoccupied") = true →
      jsIncludes (jsToLower ("AlreadyOccupied")) ("outofbounds") = false →
      (handleOccupy (GateState.mk none (some 1000) false ("")) (JSNum.val 5) (JSNum.val 5) 2
          (ChainOutcome.failed ("AlreadyOccupied"))).error
        = "That cell is already occupied.")) :=
  ⟨by decide,
   submission_failure_classified (GateState.mk none (some 1000) false (""))
     (JSNum.val 5) (JSNum.val 5) 2 5 5 2 1000 ("AlreadyOccupied") (by decide)⟩
